import Mathlib

/-!
Verification of the ESP32 energy-monitoring / SCADA gateway firmware.

The development is a shallow embedding of the sketch: the global variables
become a `LoopState` record, one iteration of `loop()` becomes the pure
function `loopIter` driven by an explicit input (the `millis()` reading, the
`calcIrms` result and the library random draws), C `float`/`double` values
are modelled as exact rationals, the `unsigned long` millisecond clock as a
natural number with 32-bit wrap-around subtraction, and `sin` as `Real.sin`.
-/

/-- Fixed nominal grid voltage, `const float gridVoltage = 220.0`. -/
def gridVoltage : ℚ := 220

/-- Wrap-around difference `now - prev` as computed on `unsigned long`
(32-bit) millisecond timestamps, e.g. `millis() - last_energy_update`. -/
def elapsedMs (now prev : ℕ) : ℕ :=
  (now % 2 ^ 32 + (2 ^ 32 - prev % 2 ^ 32)) % 2 ^ 32

/-- The `struct SCADAData` shared state record. -/
structure SCADAData where
  current_rms : ℚ
  voltage : ℚ
  ac_power_kw : ℚ
  total_energy_kwh : ℚ
  grid_frequency : ℚ
  power_factor : ℚ
  ambient_temp : ℚ
  irradiance : ℚ
  system_status : ℤ
  efficiency : ℚ
  timestamp : ℕ
deriving DecidableEq

/-- The Modbus server cells the sketch writes: holding registers
30001-30010, coils 1-4 and discrete inputs 1-4. -/
structure ModbusState where
  hreg30001 : ℕ
  hreg30002 : ℕ
  hreg30003 : ℕ
  hreg30004 : ℕ
  hreg30005 : ℕ
  hreg30006 : ℕ
  hreg30007 : ℕ
  hreg30008 : ℕ
  hreg30009 : ℕ
  hreg30010 : ℕ
  coil1 : Bool
  coil2 : Bool
  coil3 : Bool
  coil4 : Bool
  ists1 : Bool
  ists2 : Bool
  ists3 : Bool
  ists4 : Bool
deriving DecidableEq

/-- The sketch's mutable globals: the shared snapshot, the energy
accumulator, the two cadence timers, the calibration state and the Modbus
table. -/
structure LoopState where
  scadaData : SCADAData
  accumulated_energy : ℚ
  last_energy_update : ℕ
  last_scada_update : ℕ
  lastSendTime : ℕ
  noiseFloor : ℚ
  calibrated : Bool
  calibrationStart : ℕ
  calibrationReadings : ℕ
  calibrationSum : ℚ
  modbus : ModbusState
deriving DecidableEq

/-- The nondeterministic inputs one slow tick consumes: the four `random`
draws (`random(a, b)` returns an integer in `[a, b-1]`) and the value
returned by `simulateIrradiance()`. -/
structure SimInputs where
  r1 : ℤ
  r2 : ℤ
  r3 : ℤ
  r4 : ℤ
  irr : ℚ
deriving DecidableEq

/-- The inputs one `loop()` iteration consumes: the `millis()` reading, the
`emon1.calcIrms(1484)` result and the slow-tick simulation inputs. -/
structure LoopInput where
  now : ℕ
  rawCurrent : ℚ
  sim : SimInputs
deriving DecidableEq

/-- The `(uint16_t)` cast applied to a non-negative float: truncation to an
integer, reduced mod 2^16. -/
def toUint16 (q : ℚ) : ℕ := (⌊q⌋).toNat % 65536

/-- Function `updateModbusRegisters()`: rewrite every register, coil and
discrete input from the snapshot with the documented scale factors. -/
def updateModbusRegisters (d : SCADAData) : ModbusState :=
  { hreg30001 := toUint16 (d.ac_power_kw * 1000)
    hreg30002 := toUint16 (d.total_energy_kwh * 100)
    hreg30003 := toUint16 (d.grid_frequency * 100)
    hreg30004 := toUint16 (d.current_rms * 1000)
    hreg30005 := toUint16 d.voltage
    hreg30006 := toUint16 (d.power_factor * 1000)
    hreg30007 := toUint16 (d.ambient_temp * 10)
    hreg30008 := toUint16 d.irradiance
    hreg30009 := toUint16 (d.efficiency * 1000)
    hreg30010 := toUint16 (d.system_status : ℚ)
    coil1 := decide (d.system_status = 1)
    coil2 := decide (d.ac_power_kw > 0.1)
    coil3 := decide (d.irradiance > 100)
    coil4 := decide (d.grid_frequency > 49.5 ∧ d.grid_frequency < 50.5)
    ists1 := decide (d.ambient_temp > 40)
    ists2 := decide (d.power_factor < 0.9)
    ists3 := decide (d.efficiency < 0.9)
    ists4 := false }

/-- Function `updateSCADAData()`: integrate energy over the elapsed wall
clock (skipped while `last_energy_update == 0`), then refresh the simulated
fields from the random draws and the irradiance model. -/
def updateSCADAData (now : ℕ) (sim : SimInputs) (s : LoopState) : LoopState :=
  let s1 :=
    if s.last_energy_update > 0 then
      let hours_elapsed : ℚ := (elapsedMs now s.last_energy_update : ℚ) / 3600000
      let acc := s.accumulated_energy + s.scadaData.ac_power_kw * hours_elapsed
      { s with accumulated_energy := acc,
               scadaData := { s.scadaData with total_energy_kwh := acc } }
    else s
  { s1 with
    last_energy_update := now,
    scadaData := { s1.scadaData with
      grid_frequency := 50 + (sim.r1 : ℚ) / 100,
      power_factor := 0.95 + (sim.r2 : ℚ) / 1000,
      ambient_temp := 25 + (sim.r3 : ℚ) / 10,
      irradiance := sim.irr,
      system_status := 1,
      efficiency := 0.96 + (sim.r4 : ℚ) / 1000,
      timestamp := now } }

/-- The fast-cadence measurement block of `loop()`: subtract the noise
floor, zero the current below 0.01 A, compute watts, zero below 1 W, and
write the measured fields into the snapshot. -/
def fastTick (rawCurrent : ℚ) (s : LoopState) : LoopState :=
  let Irms0 := rawCurrent - s.noiseFloor
  let Irms := if Irms0 < 0.01 then 0 else Irms0
  let watts0 := Irms * gridVoltage
  let watts := if watts0 < 1 then 0 else watts0
  { s with scadaData := { s.scadaData with
      current_rms := Irms,
      voltage := gridVoltage,
      ac_power_kw := watts / 1000 } }

/-- The calibration-completion block of `loop()`: compute the noise floor
once as the mean of the accumulated raw samples and latch `calibrated`. -/
def finishCalibration (s : LoopState) : LoopState :=
  { s with noiseFloor := s.calibrationSum / (s.calibrationReadings : ℚ),
           calibrated := true }

/-- One iteration of `loop()`: while uncalibrated and inside the 120 s
window, accumulate a calibration sample and return early; otherwise finish
calibration if still pending, run the slow tick (snapshot update then Modbus
refresh) when more than 5000 ms have elapsed, and the fast measurement tick
when more than 1000 ms have elapsed. -/
def loopIter (i : LoopInput) (s : LoopState) : LoopState :=
  if s.calibrated = false ∧ elapsedMs i.now s.calibrationStart < 120000 then
    { s with calibrationSum := s.calibrationSum + i.rawCurrent,
             calibrationReadings := s.calibrationReadings + 1 }
  else
    let s1 := if s.calibrated = false then finishCalibration s else s
    let s2 :=
      if 5000 < elapsedMs i.now s1.last_scada_update then
        let s3 := updateSCADAData i.now i.sim s1
        { s3 with modbus := updateModbusRegisters s3.scadaData,
                  last_scada_update := i.now }
      else s1
    if 1000 < elapsedMs i.now s2.lastSendTime then
      { fastTick i.rawCurrent s2 with lastSendTime := i.now }
    else s2

/-- Run a sequence of loop iterations. -/
def runLoop (s : LoopState) (inputs : List LoopInput) : LoopState :=
  inputs.foldl (fun t i => loopIter i t) s

/-- The Modbus table as `setup()` allocates it: all cells zero / false. -/
def initModbus : ModbusState :=
  { hreg30001 := 0, hreg30002 := 0, hreg30003 := 0, hreg30004 := 0,
    hreg30005 := 0, hreg30006 := 0, hreg30007 := 0, hreg30008 := 0,
    hreg30009 := 0, hreg30010 := 0,
    coil1 := false, coil2 := false, coil3 := false, coil4 := false,
    ists1 := false, ists2 := false, ists3 := false, ists4 := false }

/-- The globals at the end of `setup()`: `scadaData = {0}`, zero energy,
zero timers, uncalibrated, and `calibrationStart = millis()` (the boot
parameter). -/
def initialState (bootMillis : ℕ) : LoopState :=
  { scadaData := { current_rms := 0, voltage := 0, ac_power_kw := 0,
                   total_energy_kwh := 0, grid_frequency := 0,
                   power_factor := 0, ambient_temp := 0, irradiance := 0,
                   system_status := 0, efficiency := 0, timestamp := 0 },
    accumulated_energy := 0, last_energy_update := 0,
    last_scada_update := 0, lastSendTime := 0,
    noiseFloor := 0, calibrated := false, calibrationStart := bootMillis,
    calibrationReadings := 0, calibrationSum := 0,
    modbus := initModbus }

/-- The `hour` value of `simulateIrradiance()`:
`((millis()/1000 + 8*3600) % 86400) / 3600.0`. -/
def hourOfDay (nowMillis : ℕ) : ℚ :=
  (((nowMillis / 1000 + 8 * 3600) % 86400 : ℕ) : ℚ) / 3600

/-- Function `simulateIrradiance()`: zero outside daylight hours, otherwise
a sine arc of amplitude 1200 plus the bounded `random(-100, 100)` jitter,
clamped at zero. -/
noncomputable def simulateIrradiance (nowMillis : ℕ) (jitter : ℤ) : ℝ :=
  if hourOfDay nowMillis < 6 ∨ 18 < hourOfDay nowMillis then 0
  else
    max 0 (1200 * Real.sin (Real.pi * ((hourOfDay nowMillis : ℝ) - 6) / 12)
             + (jitter : ℝ))

/-- The flat JSON object served by `GET /scada/data`. -/
structure ScadaDataResponse where
  ac_power_kw : ℚ
  total_energy_kwh : ℚ
  grid_frequency_hz : ℚ
  power_factor : ℚ
  ambient_temp_c : ℚ
  irradiance_w_m2 : ℚ
  system_status : ℤ
  efficiency : ℚ
  current_rms : ℚ
  voltage : ℚ
  timestamp : ℕ
deriving DecidableEq

/-- The `/scada/data` handler: a field-for-field copy of the snapshot. -/
def scadaDataHandler (d : SCADAData) : ScadaDataResponse :=
  { ac_power_kw := d.ac_power_kw,
    total_energy_kwh := d.total_energy_kwh,
    grid_frequency_hz := d.grid_frequency,
    power_factor := d.power_factor,
    ambient_temp_c := d.ambient_temp,
    irradiance_w_m2 := d.irradiance,
    system_status := d.system_status,
    efficiency := d.efficiency,
    current_rms := d.current_rms,
    voltage := d.voltage,
    timestamp := d.timestamp }

/-- The nested `project_info` object of the Guardian report. -/
structure ProjectInfo where
  project_name : String
  project_id : String
  location : String
  capacity_mw : ℚ
deriving DecidableEq

/-- The nested `monitoring_data` object of the Guardian report. -/
structure MonitoringData where
  gross_generation_mwh : ℚ
  net_export_mwh : ℚ
  capacity_factor : ℚ
  average_irradiance : ℚ
  current_rms : ℚ
deriving DecidableEq

/-- The nested `calculations` object of the Guardian report. -/
structure Calculations where
  baseline_emissions_tco2 : ℚ
  project_emissions_tco2 : ℚ
  emission_reductions_tco2 : ℚ
deriving DecidableEq

/-- The nested JSON object served by `GET /scada/guardian`. -/
structure GuardianResponse where
  methodology : String
  reporting_period : String
  project_info : ProjectInfo
  monitoring_data : MonitoringData
  calculations : Calculations
deriving DecidableEq

/-- Morocco grid emission factor, `float morocco_ef = 0.81`. -/
def morocco_ef : ℚ := 0.81

/-- The `/scada/guardian` handler: the derived carbon-credit report, a pure
function of the snapshot. -/
def scadaGuardianHandler (d : SCADAData) : GuardianResponse :=
  { methodology := "GCCM001_v4",
    reporting_period := "2025-09-21T00:00:00Z",
    project_info := { project_name := "VerifiedCC ESP32 Demo",
                      project_id := "VCC-ESP32-001",
                      location := "Casablanca, Morocco",
                      capacity_mw := 0.001 },
    monitoring_data := { gross_generation_mwh := d.total_energy_kwh / 1000,
                         net_export_mwh := d.total_energy_kwh * 0.98 / 1000,
                         capacity_factor := d.ac_power_kw / 0.001 * 100,
                         average_irradiance := d.irradiance,
                         current_rms := d.current_rms },
    calculations := { baseline_emissions_tco2 :=
                        d.total_energy_kwh * 0.98 / 1000 * morocco_ef,
                      project_emissions_tco2 := 0,
                      emission_reductions_tco2 :=
                        d.total_energy_kwh * 0.98 / 1000 * morocco_ef } }

/-- The route paths `setupSCADAServers()` registers on the web server. -/
def scadaRoutes : List String := ["/scada/data", "/scada/guardian", "/"]

/-- Decoding of a scaled holding register back to engineering units. -/
def decodeReg (r scale : ℕ) : ℚ := (r : ℚ) / (scale : ℚ)

/-- Randoms within the bounds of the `random(a, b)` calls in
`updateSCADAData` (`random(a, b)` returns an integer in `[a, b-1]`). -/
def SimInRange (sim : SimInputs) : Prop :=
  -10 ≤ sim.r1 ∧ sim.r1 ≤ 9 ∧ -5 ≤ sim.r2 ∧ sim.r2 ≤ 4 ∧
  -50 ≤ sim.r3 ∧ sim.r3 ≤ 149 ∧ -20 ≤ sim.r4 ∧ sim.r4 ≤ 19

/-- Agreement of the snapshot fields only the slow tick writes. -/
def slowFieldsEq (a b : SCADAData) : Prop :=
  a.total_energy_kwh = b.total_energy_kwh ∧
  a.grid_frequency = b.grid_frequency ∧
  a.power_factor = b.power_factor ∧
  a.ambient_temp = b.ambient_temp ∧
  a.irradiance = b.irradiance ∧
  a.system_status = b.system_status ∧
  a.efficiency = b.efficiency ∧
  a.timestamp = b.timestamp

/-- No iteration of the given input list reaches the 5-second slow tick. -/
def noSlowBetween (s : LoopState) : List LoopInput → Bool
  | [] => true
  | i :: rest =>
      decide (elapsedMs i.now s.last_scada_update ≤ 5000) &&
        noSlowBetween (loopIter i s) rest

/-- Invariant carried by the energy accumulator: the snapshot power is
non-negative and the published total never exceeds the accumulator. -/
def EnergyInv (s : LoopState) : Prop :=
  0 ≤ s.scadaData.ac_power_kw ∧
  s.scadaData.total_energy_kwh ≤ s.accumulated_energy

/-- A state mid-operation whose snapshot power is 1.2 kW and whose last
energy update was at 10000 ms, for the concrete 5000 ms scenario. -/
def c1State : LoopState :=
  { initialState 0 with
    last_energy_update := 10000,
    scadaData := { (initialState 0).scadaData with ac_power_kw := 1.2 } }

/-- A calibrated noise floor of 0.04 A, for the clamp-boundary scenario. -/
def c4State : LoopState := { initialState 0 with noiseFloor := 0.04 }

/-- A representative mid-operation snapshot, used as a concrete witness
input for the register round-trip. -/
def sampleSnapshot : SCADAData :=
  { current_rms := 2, voltage := 220, ac_power_kw := 0.44,
    total_energy_kwh := 12.34, grid_frequency := 50.02, power_factor := 0.95,
    ambient_temp := 25, irradiance := 800, system_status := 1,
    efficiency := 0.96, timestamp := 123456 }

/-- A calibrated state 10 s after boot whose last slow tick ran at 10000 ms,
with zero measured current in the snapshot. -/
def c8State : LoopState :=
  { initialState 0 with calibrated := true, last_scada_update := 10000 }

/-- An iteration input 2000 ms after the last slow tick: the fast
measurement tick fires (with a 2 A raw reading), the slow tick does not. -/
def c8Input : LoopInput :=
  { now := 12000, rawCurrent := 2,
    sim := { r1 := 0, r2 := 0, r3 := 0, r4 := 0, irr := 0 } }

/-- Unsigned wrap-around subtraction agrees with plain subtraction when the
clock moved forward by less than 2^32 ms. -/
lemma elapsedMs_sub (now prev : ℕ) (h1 : prev ≤ now) (h2 : now - prev < 2 ^ 32) :
    elapsedMs now prev = now - prev := by
  unfold elapsedMs
  omega

lemma elapsedMs_nonneg_q (now prev : ℕ) : (0 : ℚ) ≤ (elapsedMs now prev : ℚ) := by
  exact_mod_cast Nat.zero_le _

lemma energy_fastTick (raw : ℚ) (s : LoopState) :
    (fastTick raw s).scadaData.total_energy_kwh = s.scadaData.total_energy_kwh ∧
    (fastTick raw s).accumulated_energy = s.accumulated_energy ∧
    0 ≤ (fastTick raw s).scadaData.ac_power_kw := by
  refine ⟨rfl, rfl, ?_⟩
  simp only [fastTick, gridVoltage]
  split_ifs with h1 h2 h3 <;> norm_num
  linarith

lemma energy_updateSCADA (now : ℕ) (sim : SimInputs) (s : LoopState)
    (h : EnergyInv s) :
    EnergyInv (updateSCADAData now sim s) ∧
    s.scadaData.total_energy_kwh ≤
      (updateSCADAData now sim s).scadaData.total_energy_kwh ∧
    s.accumulated_energy ≤ (updateSCADAData now sim s).accumulated_energy := by
  obtain ⟨hp, ht⟩ := h
  simp only [updateSCADAData]
  split_ifs with h0
  · have hd : (0 : ℚ) ≤ s.scadaData.ac_power_kw *
        ((elapsedMs now s.last_energy_update : ℚ) / 3600000) :=
      mul_nonneg hp (by positivity)
    exact ⟨⟨hp, le_refl _⟩, by linarith, by linarith⟩
  · exact ⟨⟨hp, ht⟩, le_refl _, le_refl _⟩

lemma energy_loopIter (i : LoopInput) (s : LoopState) (h : EnergyInv s) :
    EnergyInv (loopIter i s) ∧
    s.scadaData.total_energy_kwh ≤ (loopIter i s).scadaData.total_energy_kwh := by
  simp only [loopIter]
  by_cases hcal : s.calibrated = false ∧ elapsedMs i.now s.calibrationStart < 120000
  · rw [if_pos hcal]
    exact ⟨h, le_refl _⟩
  · rw [if_neg hcal]
    set t1 := if s.calibrated = false then finishCalibration s else s with ht1
    have h1 : EnergyInv t1 := by
      rw [ht1]; split_ifs
      · exact h
      · exact h
    have h1t : t1.scadaData.total_energy_kwh = s.scadaData.total_energy_kwh := by
      rw [ht1]; split_ifs
      · rfl
      · rfl
    set t2 := if 5000 < elapsedMs i.now t1.last_scada_update then
        { updateSCADAData i.now i.sim t1 with
          modbus := updateModbusRegisters (updateSCADAData i.now i.sim t1).scadaData,
          last_scada_update := i.now }
      else t1 with ht2
    have h2 : EnergyInv t2 := by
      rw [ht2]; split_ifs
      · exact (energy_updateSCADA i.now i.sim t1 h1).1
      · exact h1
    have h2t : t1.scadaData.total_energy_kwh ≤ t2.scadaData.total_energy_kwh := by
      rw [ht2]; split_ifs
      · exact (energy_updateSCADA i.now i.sim t1 h1).2.1
      · exact le_refl _
    split_ifs
    · refine ⟨⟨?_, ?_⟩, ?_⟩
      · exact (energy_fastTick i.rawCurrent t2).2.2
      · show (fastTick i.rawCurrent t2).scadaData.total_energy_kwh ≤
            (fastTick i.rawCurrent t2).accumulated_energy
        rw [(energy_fastTick i.rawCurrent t2).1, (energy_fastTick i.rawCurrent t2).2.1]
        exact h2.2
      · show s.scadaData.total_energy_kwh ≤
            (fastTick i.rawCurrent t2).scadaData.total_energy_kwh
        rw [(energy_fastTick i.rawCurrent t2).1]
        rw [← h1t]
        exact h2t
    · exact ⟨h2, h1t ▸ h2t⟩

lemma energy_runLoop (inputs : List LoopInput) (s : LoopState) (h : EnergyInv s) :
    EnergyInv (runLoop s inputs) ∧
    s.scadaData.total_energy_kwh ≤ (runLoop s inputs).scadaData.total_energy_kwh := by
  induction inputs generalizing s with
  | nil => exact ⟨h, le_refl _⟩
  | cons i rest ih =>
      have hstep := energy_loopIter i s h
      have hrest := ih (loopIter i s) hstep.1
      exact ⟨hrest.1, le_trans hstep.2 hrest.2⟩

/-- C1: on each slow tick the accumulator adds
`instantaneousPowerKw * (now - prev) / 3600000` kWh to the total; on the
very first tick (`last_energy_update == 0`) the delta is zero; with
`ac_power_kw = 1.2` and 5000 ms elapsed, the tick adds `1.2 * 5000/3600000`
kWh, which is within 1e-6 of 0.001667. -/
theorem energy_integration_spec :
    (∀ (now : ℕ) (sim : SimInputs) (s : LoopState),
        s.last_energy_update = 0 →
          (updateSCADAData now sim s).accumulated_energy = s.accumulated_energy ∧
          (updateSCADAData now sim s).scadaData.total_energy_kwh =
            s.scadaData.total_energy_kwh) ∧
    (∀ (now : ℕ) (sim : SimInputs) (s : LoopState),
        0 < s.last_energy_update → s.last_energy_update ≤ now →
        now - s.last_energy_update < 2 ^ 32 →
          (updateSCADAData now sim s).accumulated_energy =
            s.accumulated_energy +
              s.scadaData.ac_power_kw *
                (((now : ℚ) - (s.last_energy_update : ℚ)) / 3600000) ∧
          (updateSCADAData now sim s).scadaData.total_energy_kwh =
            s.accumulated_energy +
              s.scadaData.ac_power_kw *
                (((now : ℚ) - (s.last_energy_update : ℚ)) / 3600000)) ∧
    (updateSCADAData 15000 ⟨0, 0, 0, 0, 0⟩ c1State).accumulated_energy -
        c1State.accumulated_energy = 6 / 5 * (5000 / 3600000) ∧
    |(6 : ℚ) / 5 * (5000 / 3600000) - 1667 / 1000000| ≤ 1 / 1000000 := by
  refine ⟨?_, ?_, ?_, ?_⟩
  · intro now sim s h
    simp [updateSCADAData, h]
  · intro now sim s h1 h2 h3
    have he := elapsedMs_sub now s.last_energy_update h2 h3
    have hc : ((now - s.last_energy_update : ℕ) : ℚ) =
        (now : ℚ) - (s.last_energy_update : ℚ) := Nat.cast_sub h2
    simp [updateSCADAData, h1, he, hc]
  · have he : elapsedMs 15000 10000 = 5000 := by norm_num [elapsedMs]
    norm_num [updateSCADAData, c1State, initialState, he]
  · norm_num [abs_le]

/-- C2: from boot, across any sequence of loop iterations, the published
`total_energy_kwh` never decreases (instantaneous power is clamped
non-negative by the measurement path, so every energy delta is
non-negative). -/
theorem totalEnergy_monotone (b : ℕ) (inputs more : List LoopInput) :
    (runLoop (initialState b) inputs).scadaData.total_energy_kwh ≤
      (runLoop (initialState b) (inputs ++ more)).scadaData.total_energy_kwh := by
  have h0 : EnergyInv (initialState b) := by
    constructor
    · norm_num [initialState]
    · norm_num [initialState]
  have hsplit : runLoop (initialState b) (inputs ++ more) =
      runLoop (runLoop (initialState b) inputs) more := by
    unfold runLoop
    exact List.foldl_append _ _ _ _
  rw [hsplit]
  exact (energy_runLoop more _ (energy_runLoop inputs _ h0).1).2

/-- C3: a corrected current below 0.01 A is reported as exactly 0, and the
same sub-threshold rule applies to power at 1 W: a computed wattage below
1 W is reported as exactly 0. -/
theorem noise_threshold_zeroing (s : LoopState) (raw : ℚ) :
    (raw - s.noiseFloor < 0.01 → (fastTick raw s).scadaData.current_rms = 0) ∧
    ((fastTick raw s).scadaData.current_rms * gridVoltage < 1 →
      (fastTick raw s).scadaData.ac_power_kw = 0) := by
  constructor
  · intro h
    simp [fastTick, h]
  · intro h
    simp only [fastTick] at h ⊢
    rw [if_pos h]
    norm_num

/-- C4 counterexample: with `rawRmsAmps = 0.05` and `noiseFloorAmps = 0.04`
the corrected current is exactly 0.01 A, and the reported current is 0.01,
not 0: the boundary is not inclusive-zero, because the code's comparison
`Irms < 0.01` is strict. -/
theorem clamp_boundary_counterexample :
    (1 : ℚ) / 20 - c4State.noiseFloor = 0.01 ∧
    (fastTick (1 / 20) c4State).scadaData.current_rms = 0.01 ∧
    ¬(fastTick (1 / 20) c4State).scadaData.current_rms = 0 := by
  refine ⟨by norm_num [c4State, initialState], ?_, ?_⟩
  · norm_num [fastTick, c4State, initialState]
  · norm_num [fastTick, c4State, initialState]

/-- C4 amended: a corrected current of exactly 0.01 A sits outside the
strict `< 0.01` clamp, so it is reported unchanged as 0.01 A; only strictly
sub-threshold values are forced to zero. -/
theorem clamp_boundary_exclusive (s : LoopState) (raw : ℚ)
    (h : raw - s.noiseFloor = 0.01) :
    (fastTick raw s).scadaData.current_rms = 0.01 := by
  simp [fastTick, h]

/-- Witness for the amended C4 at the spec's concrete scenario. -/
theorem clamp_boundary_exclusive_witness :
    (fastTick (1 / 20) c4State).scadaData.current_rms = 0.01 :=
  clamp_boundary_exclusive c4State (1 / 20) (by norm_num [c4State, initialState])

@[simp] lemma fastTick_calibrated (raw : ℚ) (s : LoopState) :
    (fastTick raw s).calibrated = s.calibrated := rfl

@[simp] lemma fastTick_noiseFloor (raw : ℚ) (s : LoopState) :
    (fastTick raw s).noiseFloor = s.noiseFloor := rfl

@[simp] lemma fastTick_calibrationReadings (raw : ℚ) (s : LoopState) :
    (fastTick raw s).calibrationReadings = s.calibrationReadings := rfl

@[simp] lemma fastTick_modbus (raw : ℚ) (s : LoopState) :
    (fastTick raw s).modbus = s.modbus := rfl

@[simp] lemma fastTick_last_scada_update (raw : ℚ) (s : LoopState) :
    (fastTick raw s).last_scada_update = s.last_scada_update := rfl

@[simp] lemma fastTick_total (raw : ℚ) (s : LoopState) :
    (fastTick raw s).scadaData.total_energy_kwh = s.scadaData.total_energy_kwh := rfl

@[simp] lemma fastTick_grid_frequency (raw : ℚ) (s : LoopState) :
    (fastTick raw s).scadaData.grid_frequency = s.scadaData.grid_frequency := rfl

@[simp] lemma fastTick_power_factor (raw : ℚ) (s : LoopState) :
    (fastTick raw s).scadaData.power_factor = s.scadaData.power_factor := rfl

@[simp] lemma fastTick_ambient_temp (raw : ℚ) (s : LoopState) :
    (fastTick raw s).scadaData.ambient_temp = s.scadaData.ambient_temp := rfl

@[simp] lemma fastTick_irradiance (raw : ℚ) (s : LoopState) :
    (fastTick raw s).scadaData.irradiance = s.scadaData.irradiance := rfl

@[simp] lemma fastTick_system_status (raw : ℚ) (s : LoopState) :
    (fastTick raw s).scadaData.system_status = s.scadaData.system_status := rfl

@[simp] lemma fastTick_efficiency (raw : ℚ) (s : LoopState) :
    (fastTick raw s).scadaData.efficiency = s.scadaData.efficiency := rfl

@[simp] lemma fastTick_timestamp (raw : ℚ) (s : LoopState) :
    (fastTick raw s).scadaData.timestamp = s.scadaData.timestamp := rfl

@[simp] lemma updateSCADA_calibrated (now : ℕ) (sim : SimInputs) (s : LoopState) :
    (updateSCADAData now sim s).calibrated = s.calibrated := by
  simp only [updateSCADAData]
  split_ifs <;> rfl

@[simp] lemma updateSCADA_noiseFloor (now : ℕ) (sim : SimInputs) (s : LoopState) :
    (updateSCADAData now sim s).noiseFloor = s.noiseFloor := by
  simp only [updateSCADAData]
  split_ifs <;> rfl

@[simp] lemma updateSCADA_calibrationReadings (now : ℕ) (sim : SimInputs) (s : LoopState) :
    (updateSCADAData now sim s).calibrationReadings = s.calibrationReadings := by
  simp only [updateSCADAData]
  split_ifs <;> rfl

@[simp] lemma updateSCADA_grid_frequency (now : ℕ) (sim : SimInputs) (s : LoopState) :
    (updateSCADAData now sim s).scadaData.grid_frequency =
      50 + (sim.r1 : ℚ) / 100 := rfl

@[simp] lemma updateSCADA_power_factor (now : ℕ) (sim : SimInputs) (s : LoopState) :
    (updateSCADAData now sim s).scadaData.power_factor =
      0.95 + (sim.r2 : ℚ) / 1000 := rfl

@[simp] lemma updateSCADA_ambient_temp (now : ℕ) (sim : SimInputs) (s : LoopState) :
    (updateSCADAData now sim s).scadaData.ambient_temp =
      25 + (sim.r3 : ℚ) / 10 := rfl

@[simp] lemma updateSCADA_efficiency (now : ℕ) (sim : SimInputs) (s : LoopState) :
    (updateSCADAData now sim s).scadaData.efficiency =
      0.96 + (sim.r4 : ℚ) / 1000 := rfl

@[simp] lemma finishCalibration_calibrated (s : LoopState) :
    (finishCalibration s).calibrated = true := rfl

@[simp] lemma finishCalibration_noiseFloor (s : LoopState) :
    (finishCalibration s).noiseFloor =
      s.calibrationSum / (s.calibrationReadings : ℚ) := rfl

@[simp] lemma finishCalibration_calibrationReadings (s : LoopState) :
    (finishCalibration s).calibrationReadings = s.calibrationReadings := rfl

lemma calibrated_loopIter (i : LoopInput) (s : LoopState) (h : s.calibrated = true) :
    (loopIter i s).calibrated = true ∧ (loopIter i s).noiseFloor = s.noiseFloor := by
  simp only [loopIter]
  rw [if_neg (by simp [h])]
  rw [if_neg (by simp [h] : ¬s.calibrated = false)]
  split_ifs with h1 h2 h2 <;> simp [h]

lemma calibrated_runLoop (s : LoopState) (inputs : List LoopInput)
    (h : s.calibrated = true) :
    (runLoop s inputs).calibrated = true ∧
    (runLoop s inputs).noiseFloor = s.noiseFloor := by
  induction inputs generalizing s with
  | nil => exact ⟨h, rfl⟩
  | cons i rest ih =>
      have hstep := calibrated_loopIter i s h
      have hrest := ih (loopIter i s) hstep.1
      exact ⟨hrest.1, hrest.2.trans hstep.2⟩

lemma readings_le_loopIter (i : LoopInput) (s : LoopState) :
    s.calibrationReadings ≤ (loopIter i s).calibrationReadings := by
  simp only [loopIter]
  split_ifs <;> simp

lemma readings_le_runLoop (s : LoopState) (inputs : List LoopInput) :
    s.calibrationReadings ≤ (runLoop s inputs).calibrationReadings := by
  induction inputs generalizing s with
  | nil => exact le_refl _
  | cons i rest ih =>
      exact le_trans (readings_le_loopIter i s) (ih (loopIter i s))

/-- C5: while uncalibrated and inside the 120 s window an iteration only
accumulates a sample (one more reading, `calibrated` stays false, the noise
floor untouched); the first iteration at or past the window end flips
`calibrated` to true and computes the noise floor, once, as
`calibrationSum / calibrationReadings`; once `calibrated` is true it stays
true and the noise floor is never modified again; and the reading count
never decreases, so a completion preceded by at least one in-window sample
has `calibrationReadings > 0`. -/
theorem calibration_once_invariant :
    (∀ (i : LoopInput) (s : LoopState),
        s.calibrated = false → elapsedMs i.now s.calibrationStart < 120000 →
          (loopIter i s).calibrated = false ∧
          (loopIter i s).calibrationReadings = s.calibrationReadings + 1 ∧
          (loopIter i s).calibrationSum = s.calibrationSum + i.rawCurrent ∧
          (loopIter i s).noiseFloor = s.noiseFloor) ∧
    (∀ (i : LoopInput) (s : LoopState),
        s.calibrated = false → 120000 ≤ elapsedMs i.now s.calibrationStart →
          (loopIter i s).calibrated = true ∧
          (loopIter i s).noiseFloor =
            s.calibrationSum / (s.calibrationReadings : ℚ)) ∧
    (∀ (s : LoopState) (inputs : List LoopInput), s.calibrated = true →
        (runLoop s inputs).calibrated = true ∧
        (runLoop s inputs).noiseFloor = s.noiseFloor) ∧
    (∀ (s : LoopState) (inputs : List LoopInput),
        0 < s.calibrationReadings → 0 < (runLoop s inputs).calibrationReadings) := by
  refine ⟨?_, ?_, ?_, ?_⟩
  · intro i s h hw
    rw [loopIter, if_pos ⟨h, hw⟩]
    exact ⟨h, rfl, rfl, rfl⟩
  · intro i s h hw
    simp only [loopIter]
    rw [if_neg (fun hc => absurd hc.2 (not_lt.mpr hw))]
    rw [if_pos h]
    split_ifs with h1 h2 h2 <;> simp
  · intro s inputs h
    exact calibrated_runLoop s inputs h
  · intro s inputs h
    exact lt_of_lt_of_le h (readings_le_runLoop s inputs)

/-- C6: with `hourOfDay = ((now/1000 + offsetSeconds) mod 86400) / 3600`,
the simulated irradiance is exactly 0 when `hourOfDay < 6` or
`hourOfDay > 18`, otherwise equals
`max 0 (1200 * sin(pi * (hourOfDay - 6) / 12) + jitter)` with the jitter
draw bounded within plus or minus 100; at `hourOfDay = 12` it is within the
100 W/m2 jitter bound of 1200. -/
theorem simulateIrradiance_model (t : ℕ) (j : ℤ)
    (hj1 : -100 ≤ j) (hj2 : j ≤ 99) :
    (hourOfDay t < 6 ∨ 18 < hourOfDay t → simulateIrradiance t j = 0) ∧
    (6 ≤ hourOfDay t → hourOfDay t ≤ 18 →
      simulateIrradiance t j =
        max 0 (1200 * Real.sin (Real.pi * ((hourOfDay t : ℝ) - 6) / 12)
                 + (j : ℝ))) ∧
    (hourOfDay t = 12 → |simulateIrradiance t j - 1200| ≤ 100) := by
  refine ⟨?_, ?_, ?_⟩
  · intro h
    rw [simulateIrradiance, if_pos h]
  · intro h6 h18
    rw [simulateIrradiance, if_neg]
    rintro (hlt | hgt)
    · linarith
    · linarith
  · intro h12
    rw [simulateIrradiance, if_neg (by rw [h12]; norm_num)]
    rw [h12]
    have harg : Real.pi * (((12 : ℚ) : ℝ) - 6) / 12 = Real.pi / 2 := by
      push_cast
      ring
    rw [harg, Real.sin_pi_div_two]
    have hjr1 : (-100 : ℝ) ≤ (j : ℝ) := by exact_mod_cast hj1
    have hjr2 : (j : ℝ) ≤ 99 := by exact_mod_cast hj2
    rw [max_eq_right (by linarith)]
    rw [abs_le]
    constructor <;> linarith

/-- Witness for C6 at `millis = 14400000` (so `hourOfDay = 12`) and a zero
jitter draw. -/
theorem simulateIrradiance_model_witness :
    |simulateIrradiance 14400000 0 - 1200| ≤ 100 :=
  (simulateIrradiance_model 14400000 0 (by norm_num) (by norm_num)).2.2
    (by norm_num [hourOfDay])

lemma toUint16_roundtrip (v : ℚ) (S : ℕ) (hS : 0 < S) (h0 : 0 ≤ v)
    (hub : v * S < 65536) :
    |((toUint16 (v * (S : ℚ)) : ℚ) / (S : ℚ)) - v| < 1 / (S : ℚ) := by
  have hSQ : (0 : ℚ) < (S : ℚ) := by exact_mod_cast hS
  have h0m : (0 : ℚ) ≤ v * (S : ℚ) := mul_nonneg h0 hSQ.le
  have hfl0 : 0 ≤ ⌊v * (S : ℚ)⌋ := Int.floor_nonneg.mpr h0m
  have hflub : ⌊v * (S : ℚ)⌋ < 65536 := by
    apply Int.floor_lt.mpr
    push_cast
    exact hub
  have htu : toUint16 (v * (S : ℚ)) = (⌊v * (S : ℚ)⌋).toNat := by
    unfold toUint16
    apply Nat.mod_eq_of_lt
    omega
  have hcast : ((toUint16 (v * (S : ℚ)) : ℕ) : ℚ) = ((⌊v * (S : ℚ)⌋ : ℤ) : ℚ) := by
    rw [htu]
    exact_mod_cast Int.toNat_of_nonneg hfl0
  have hle : ((⌊v * (S : ℚ)⌋ : ℤ) : ℚ) ≤ v * (S : ℚ) := Int.floor_le _
  have hgt : v * (S : ℚ) - 1 < ((⌊v * (S : ℚ)⌋ : ℤ) : ℚ) := Int.sub_one_lt_floor _
  rw [hcast]
  have key : ((⌊v * (S : ℚ)⌋ : ℤ) : ℚ) / (S : ℚ) - v =
      (((⌊v * (S : ℚ)⌋ : ℤ) : ℚ) - v * (S : ℚ)) / (S : ℚ) := by
    field_simp
    ring
  rw [key, abs_div, abs_of_pos hSQ]
  have habs : |((⌊v * (S : ℚ)⌋ : ℤ) : ℚ) - v * (S : ℚ)| < 1 := by
    rw [abs_lt]
    constructor <;> linarith
  exact (div_lt_div_iff_of_pos_right hSQ).mpr habs

/-- C7: every snapshot field written to a holding register with its
documented constant scale (power x1000, energy x100, frequency x100,
current x1000, voltage x1, power factor x1000, temperature x10,
irradiance x1, efficiency x1000) round-trips through the 16-bit encoding
within 1/S resolution, for field values inside the register's range. -/
theorem register_roundtrip_all (d : SCADAData)
    (h1 : 0 ≤ d.ac_power_kw) (b1 : d.ac_power_kw * 1000 < 65536)
    (h2 : 0 ≤ d.total_energy_kwh) (b2 : d.total_energy_kwh * 100 < 65536)
    (h3 : 0 ≤ d.grid_frequency) (b3 : d.grid_frequency * 100 < 65536)
    (h4 : 0 ≤ d.current_rms) (b4 : d.current_rms * 1000 < 65536)
    (h5 : 0 ≤ d.voltage) (b5 : d.voltage < 65536)
    (h6 : 0 ≤ d.power_factor) (b6 : d.power_factor * 1000 < 65536)
    (h7 : 0 ≤ d.ambient_temp) (b7 : d.ambient_temp * 10 < 65536)
    (h8 : 0 ≤ d.irradiance) (b8 : d.irradiance < 65536)
    (h9 : 0 ≤ d.efficiency) (b9 : d.efficiency * 1000 < 65536) :
    |decodeReg ((updateModbusRegisters d).hreg30001) 1000 - d.ac_power_kw| < 1 / 1000 ∧
    |decodeReg ((updateModbusRegisters d).hreg30002) 100 - d.total_energy_kwh| < 1 / 100 ∧
    |decodeReg ((updateModbusRegisters d).hreg30003) 100 - d.grid_frequency| < 1 / 100 ∧
    |decodeReg ((updateModbusRegisters d).hreg30004) 1000 - d.current_rms| < 1 / 1000 ∧
    |decodeReg ((updateModbusRegisters d).hreg30005) 1 - d.voltage| < 1 ∧
    |decodeReg ((updateModbusRegisters d).hreg30006) 1000 - d.power_factor| < 1 / 1000 ∧
    |decodeReg ((updateModbusRegisters d).hreg30007) 10 - d.ambient_temp| < 1 / 10 ∧
    |decodeReg ((updateModbusRegisters d).hreg30008) 1 - d.irradiance| < 1 ∧
    |decodeReg ((updateModbusRegisters d).hreg30009) 1000 - d.efficiency| < 1 / 1000 := by
  refine ⟨?_, ?_, ?_, ?_, ?_, ?_, ?_, ?_, ?_⟩
  · have h := toUint16_roundtrip d.ac_power_kw 1000 (by norm_num) h1 (by exact_mod_cast b1)
    simpa [decodeReg, updateModbusRegisters] using h
  · have h := toUint16_roundtrip d.total_energy_kwh 100 (by norm_num) h2 (by exact_mod_cast b2)
    simpa [decodeReg, updateModbusRegisters] using h
  · have h := toUint16_roundtrip d.grid_frequency 100 (by norm_num) h3 (by exact_mod_cast b3)
    simpa [decodeReg, updateModbusRegisters] using h
  · have h := toUint16_roundtrip d.current_rms 1000 (by norm_num) h4 (by exact_mod_cast b4)
    simpa [decodeReg, updateModbusRegisters] using h
  · have h := toUint16_roundtrip d.voltage 1 (by norm_num) h5 (by push_cast; linarith)
    simpa [decodeReg, updateModbusRegisters] using h
  · have h := toUint16_roundtrip d.power_factor 1000 (by norm_num) h6 (by exact_mod_cast b6)
    simpa [decodeReg, updateModbusRegisters] using h
  · have h := toUint16_roundtrip d.ambient_temp 10 (by norm_num) h7 (by exact_mod_cast b7)
    simpa [decodeReg, updateModbusRegisters] using h
  · have h := toUint16_roundtrip d.irradiance 1 (by norm_num) h8 (by push_cast; linarith)
    simpa [decodeReg, updateModbusRegisters] using h
  · have h := toUint16_roundtrip d.efficiency 1000 (by norm_num) h9 (by exact_mod_cast b9)
    simpa [decodeReg, updateModbusRegisters] using h

/-- Witness for C7 at a representative snapshot: the decoded power register
is within 0.001 kW of the 0.44 kW snapshot value. -/
theorem register_roundtrip_witness :
    |decodeReg ((updateModbusRegisters sampleSnapshot).hreg30001) 1000 -
        sampleSnapshot.ac_power_kw| < 1 / 1000 :=
  (register_roundtrip_all sampleSnapshot
    (by norm_num [sampleSnapshot]) (by norm_num [sampleSnapshot])
    (by norm_num [sampleSnapshot]) (by norm_num [sampleSnapshot])
    (by norm_num [sampleSnapshot]) (by norm_num [sampleSnapshot])
    (by norm_num [sampleSnapshot]) (by norm_num [sampleSnapshot])
    (by norm_num [sampleSnapshot]) (by norm_num [sampleSnapshot])
    (by norm_num [sampleSnapshot]) (by norm_num [sampleSnapshot])
    (by norm_num [sampleSnapshot]) (by norm_num [sampleSnapshot])
    (by norm_num [sampleSnapshot]) (by norm_num [sampleSnapshot])
    (by norm_num [sampleSnapshot]) (by norm_num [sampleSnapshot])).1

lemma slowFieldsEq_refl (a : SCADAData) : slowFieldsEq a a := by
  simp [slowFieldsEq]

lemma slowFieldsEq_trans {a b c : SCADAData}
    (h1 : slowFieldsEq a b) (h2 : slowFieldsEq b c) : slowFieldsEq a c := by
  obtain ⟨e1, e2, e3, e4, e5, e6, e7, e8⟩ := h1
  obtain ⟨f1, f2, f3, f4, f5, f6, f7, f8⟩ := h2
  exact ⟨e1.trans f1, e2.trans f2, e3.trans f3, e4.trans f4,
         e5.trans f5, e6.trans f6, e7.trans f7, e8.trans f8⟩

lemma noSlow_step (i : LoopInput) (s : LoopState) (h : s.calibrated = true)
    (hw : elapsedMs i.now s.last_scada_update ≤ 5000) :
    slowFieldsEq (loopIter i s).scadaData s.scadaData ∧
    (loopIter i s).last_scada_update = s.last_scada_update ∧
    (loopIter i s).calibrated = true := by
  simp only [loopIter]
  rw [if_neg (by simp [h])]
  rw [if_neg (by simp [h] : ¬s.calibrated = false)]
  rw [if_neg (not_lt.mpr hw)]
  split_ifs <;> simp [slowFieldsEq, h]

lemma noSlow_run (s : LoopState) (inputs : List LoopInput)
    (h : s.calibrated = true) (hns : noSlowBetween s inputs = true) :
    slowFieldsEq (runLoop s inputs).scadaData s.scadaData := by
  induction inputs generalizing s with
  | nil => exact slowFieldsEq_refl _
  | cons i rest ih =>
      rw [noSlowBetween, Bool.and_eq_true] at hns
      have hw := of_decide_eq_true hns.1
      have hstep := noSlow_step i s h hw
      have hrest := ih (loopIter i s) hstep.2.2 hns.2
      exact slowFieldsEq_trans hrest hstep.1

lemma noTick_id (i : LoopInput) (s : LoopState) (h : s.calibrated = true)
    (hw : elapsedMs i.now s.last_scada_update ≤ 5000)
    (hf : elapsedMs i.now s.lastSendTime ≤ 1000) :
    loopIter i s = s := by
  simp only [loopIter]
  rw [if_neg (by simp [h])]
  rw [if_neg (by simp [h] : ¬s.calibrated = false)]
  rw [if_neg (not_lt.mpr hw)]
  rw [if_neg (not_lt.mpr hf)]

/-- C8 counterexample: an iteration 2000 ms after the last slow tick does
not run the slow tick (the 5000 ms refresh is not due), yet the fast
measurement tick rewrites `current_rms`, so two `/scada/data` reads inside
the same slow-tick interval differ: 0 A before, 2 A after. -/
theorem scada_read_fast_tick_counterexample :
    (loopIter c8Input c8State).last_scada_update = c8State.last_scada_update ∧
    (scadaDataHandler c8State.scadaData).current_rms = 0 ∧
    (scadaDataHandler (loopIter c8Input c8State).scadaData).current_rms = 2 := by
  have e1 : elapsedMs 12000 10000 = 2000 := by norm_num [elapsedMs]
  have e2 : elapsedMs 12000 0 = 12000 := by norm_num [elapsedMs]
  refine ⟨?_, by norm_num [scadaDataHandler, c8State, initialState], ?_⟩
  · norm_num [loopIter, c8State, c8Input, initialState, e1, e2, fastTick]
  · norm_num [loopIter, c8State, c8Input, initialState, e1, e2, fastTick,
      scadaDataHandler]

/-- C8 amended: within one slow-tick interval the slow-tick-owned fields
(total energy, grid frequency, power factor, ambient temperature,
irradiance, system status, efficiency, timestamp) are stable across any
number of iterations, and two reads with no tick at all between them are
identical in every field; but the fast measurement tick may rewrite
`current_rms`, `voltage` and `ac_power_kw` between slow ticks. -/
theorem scada_read_stability :
    (∀ (i : LoopInput) (s : LoopState), s.calibrated = true →
        elapsedMs i.now s.last_scada_update ≤ 5000 →
          slowFieldsEq (loopIter i s).scadaData s.scadaData ∧
          (loopIter i s).last_scada_update = s.last_scada_update) ∧
    (∀ (s : LoopState) (inputs : List LoopInput), s.calibrated = true →
        noSlowBetween s inputs = true →
          slowFieldsEq (runLoop s inputs).scadaData s.scadaData) ∧
    (∀ (i : LoopInput) (s : LoopState), s.calibrated = true →
        elapsedMs i.now s.last_scada_update ≤ 5000 →
        elapsedMs i.now s.lastSendTime ≤ 1000 →
          scadaDataHandler (loopIter i s).scadaData =
            scadaDataHandler s.scadaData) := by
  refine ⟨?_, ?_, ?_⟩
  · intro i s h hw
    exact ⟨(noSlow_step i s h hw).1, (noSlow_step i s h hw).2.1⟩
  · intro s inputs h hns
    exact noSlow_run s inputs h hns
  · intro i s h hw hf
    rw [noTick_id i s h hw hf]

/-- C9 counterexample: the web server registers no `/scada/report` route;
the derived report is served at `/scada/guardian` instead. -/
theorem report_route_counterexample :
    ¬("/scada/report" ∈ scadaRoutes) ∧ "/scada/guardian" ∈ scadaRoutes := by
  constructor
  · simp [scadaRoutes]
  · simp [scadaRoutes]

/-- C9 amended: the derived report is served at `GET /scada/guardian` as a
nested object; its `monitoring_data` carries
`gross_generation_mwh = totalEnergyKwh/1000`,
`net_export_mwh = totalEnergyKwh * 0.98 / 1000`, a `capacity_factor`,
`average_irradiance` and `current_rms`, and its `calculations` carries
`emission_reductions_tco2 = net_export_mwh * 0.81` (the fixed Morocco
emission factor), all computed as a pure transform of the snapshot. -/
theorem guardian_report_spec (d : SCADAData) :
    (scadaGuardianHandler d).monitoring_data.gross_generation_mwh =
      d.total_energy_kwh / 1000 ∧
    (scadaGuardianHandler d).monitoring_data.net_export_mwh =
      d.total_energy_kwh * 0.98 / 1000 ∧
    (scadaGuardianHandler d).monitoring_data.capacity_factor =
      d.ac_power_kw / 0.001 * 100 ∧
    (scadaGuardianHandler d).monitoring_data.average_irradiance =
      d.irradiance ∧
    (scadaGuardianHandler d).monitoring_data.current_rms = d.current_rms ∧
    (scadaGuardianHandler d).calculations.emission_reductions_tco2 =
      (scadaGuardianHandler d).monitoring_data.net_export_mwh * morocco_ef ∧
    (scadaGuardianHandler d).calculations.baseline_emissions_tco2 =
      (scadaGuardianHandler d).calculations.emission_reductions_tco2 ∧
    (scadaGuardianHandler d).calculations.project_emissions_tco2 = 0 :=
  ⟨rfl, rfl, rfl, rfl, rfl, rfl, rfl, rfl⟩

lemma sim_fields_range (now : ℕ) (sim : SimInputs) (s : LoopState)
    (h : SimInRange sim) :
    49.90 ≤ (updateSCADAData now sim s).scadaData.grid_frequency ∧
    (updateSCADAData now sim s).scadaData.grid_frequency ≤ 50.09 ∧
    0.945 ≤ (updateSCADAData now sim s).scadaData.power_factor ∧
    (updateSCADAData now sim s).scadaData.power_factor ≤ 0.954 ∧
    0.940 ≤ (updateSCADAData now sim s).scadaData.efficiency ∧
    (updateSCADAData now sim s).scadaData.efficiency ≤ 0.979 ∧
    20 ≤ (updateSCADAData now sim s).scadaData.ambient_temp ∧
    (updateSCADAData now sim s).scadaData.ambient_temp ≤ 39.9 := by
  obtain ⟨a1, a2, b1, b2, c1, c2, d1, d2⟩ := h
  have qa1 : (-10 : ℚ) ≤ (sim.r1 : ℚ) := by exact_mod_cast a1
  have qa2 : (sim.r1 : ℚ) ≤ 9 := by exact_mod_cast a2
  have qb1 : (-5 : ℚ) ≤ (sim.r2 : ℚ) := by exact_mod_cast b1
  have qb2 : (sim.r2 : ℚ) ≤ 4 := by exact_mod_cast b2
  have qc1 : (-50 : ℚ) ≤ (sim.r3 : ℚ) := by exact_mod_cast c1
  have qc2 : (sim.r3 : ℚ) ≤ 149 := by exact_mod_cast c2
  have qd1 : (-20 : ℚ) ≤ (sim.r4 : ℚ) := by exact_mod_cast d1
  have qd2 : (sim.r4 : ℚ) ≤ 19 := by exact_mod_cast d2
  simp only [updateSCADA_grid_frequency, updateSCADA_power_factor,
    updateSCADA_efficiency, updateSCADA_ambient_temp]
  norm_num
  refine ⟨by linarith, by linarith, by linarith, by linarith,
          by linarith, by linarith, by linarith, by linarith⟩

lemma modbus_flags (d : SCADAData)
    (hf1 : 49.5 < d.grid_frequency) (hf2 : d.grid_frequency < 50.5)
    (ht : d.ambient_temp ≤ 40) (hp : 0.9 ≤ d.power_factor)
    (he : 0.9 ≤ d.efficiency) :
    (updateModbusRegisters d).coil4 = true ∧
    (updateModbusRegisters d).ists1 = false ∧
    (updateModbusRegisters d).ists2 = false ∧
    (updateModbusRegisters d).ists3 = false := by
  refine ⟨?_, ?_, ?_, ?_⟩
  · exact decide_eq_true ⟨hf1, hf2⟩
  · exact decide_eq_false (not_lt.mpr ht)
  · exact decide_eq_false (not_lt.mpr hp)
  · exact decide_eq_false (not_lt.mpr he)

lemma alarms_loopIter (i : LoopInput) (s : LoopState) (hr : SimInRange i.sim)
    (h : s.modbus.ists1 = false ∧ s.modbus.ists2 = false ∧
         s.modbus.ists3 = false) :
    (loopIter i s).modbus.ists1 = false ∧
    (loopIter i s).modbus.ists2 = false ∧
    (loopIter i s).modbus.ists3 = false := by
  simp only [loopIter]
  by_cases hcal : s.calibrated = false ∧ elapsedMs i.now s.calibrationStart < 120000
  · rw [if_pos hcal]
    exact h
  · rw [if_neg hcal]
    set t1 := if s.calibrated = false then finishCalibration s else s with ht1
    have hm1 : t1.modbus = s.modbus := by
      rw [ht1]; split_ifs <;> rfl
    set t2 := if 5000 < elapsedMs i.now t1.last_scada_update then
        { updateSCADAData i.now i.sim t1 with
          modbus := updateModbusRegisters (updateSCADAData i.now i.sim t1).scadaData,
          last_scada_update := i.now }
      else t1 with ht2
    have hm2 : t2.modbus.ists1 = false ∧ t2.modbus.ists2 = false ∧
        t2.modbus.ists3 = false := by
      rw [ht2]
      split_ifs
      · have hrange := sim_fields_range i.now i.sim t1 hr
        have hflags := modbus_flags (updateSCADAData i.now i.sim t1).scadaData
          (by linarith [hrange.1]) (by linarith [hrange.2.1])
          (by linarith [hrange.2.2.2.2.2.2.2]) (by linarith [hrange.2.2.1])
          (by linarith [hrange.2.2.2.2.1])
        exact ⟨hflags.2.1, hflags.2.2.1, hflags.2.2.2⟩
      · rw [hm1]
        exact h
    split_ifs
    · exact hm2
    · exact hm2

lemma alarms_runLoop (s : LoopState) (inputs : List LoopInput)
    (hr : ∀ i ∈ inputs, SimInRange i.sim)
    (h : s.modbus.ists1 = false ∧ s.modbus.ists2 = false ∧
         s.modbus.ists3 = false) :
    (runLoop s inputs).modbus.ists1 = false ∧
    (runLoop s inputs).modbus.ists2 = false ∧
    (runLoop s inputs).modbus.ists3 = false := by
  induction inputs generalizing s with
  | nil => exact h
  | cons i rest ih =>
      have hstep := alarms_loopIter i s (hr i (List.mem_cons_self i rest)) h
      exact ih (loopIter i s) (fun j hj => hr j (List.mem_cons_of_mem i hj)) hstep

/-- C10: with the `random` draws inside their documented bounds, every slow
tick leaves grid frequency in [49.90, 50.09] Hz, power factor in
[0.945, 0.954], efficiency in [0.940, 0.979] and ambient temperature in
[20.0, 39.9] C; the Modbus refresh of that snapshot therefore sets the
Grid OK coil true and leaves the high-temperature, low-power-factor and
low-efficiency discrete-input alarms false; and along any run from boot
whose draws stay in bounds the three alarm inputs are never raised. -/
theorem sim_ranges_no_alarms (now : ℕ) (sim : SimInputs) (s : LoopState)
    (h1 : -10 ≤ sim.r1) (h2 : sim.r1 ≤ 9)
    (h3 : -5 ≤ sim.r2) (h4 : sim.r2 ≤ 4)
    (h5 : -50 ≤ sim.r3) (h6 : sim.r3 ≤ 149)
    (h7 : -20 ≤ sim.r4) (h8 : sim.r4 ≤ 19) :
    (49.90 ≤ (updateSCADAData now sim s).scadaData.grid_frequency ∧
      (updateSCADAData now sim s).scadaData.grid_frequency ≤ 50.09) ∧
    (0.945 ≤ (updateSCADAData now sim s).scadaData.power_factor ∧
      (updateSCADAData now sim s).scadaData.power_factor ≤ 0.954) ∧
    (0.940 ≤ (updateSCADAData now sim s).scadaData.efficiency ∧
      (updateSCADAData now sim s).scadaData.efficiency ≤ 0.979) ∧
    (20 ≤ (updateSCADAData now sim s).scadaData.ambient_temp ∧
      (updateSCADAData now sim s).scadaData.ambient_temp ≤ 39.9) ∧
    (updateModbusRegisters (updateSCADAData now sim s).scadaData).coil4 = true ∧
    (updateModbusRegisters (updateSCADAData now sim s).scadaData).ists1 = false ∧
    (updateModbusRegisters (updateSCADAData now sim s).scadaData).ists2 = false ∧
    (updateModbusRegisters (updateSCADAData now sim s).scadaData).ists3 = false ∧
    (∀ (b : ℕ) (inputs : List LoopInput),
        (∀ i ∈ inputs, SimInRange i.sim) →
          (runLoop (initialState b) inputs).modbus.ists1 = false ∧
          (runLoop (initialState b) inputs).modbus.ists2 = false ∧
          (runLoop (initialState b) inputs).modbus.ists3 = false) := by
  have hr : SimInRange sim := ⟨h1, h2, h3, h4, h5, h6, h7, h8⟩
  have hrange := sim_fields_range now sim s hr
  have hflags := modbus_flags (updateSCADAData now sim s).scadaData
    (by linarith [hrange.1]) (by linarith [hrange.2.1])
    (by linarith [hrange.2.2.2.2.2.2.2]) (by linarith [hrange.2.2.1])
    (by linarith [hrange.2.2.2.2.1])
  refine ⟨⟨hrange.1, hrange.2.1⟩, ⟨hrange.2.2.1, hrange.2.2.2.1⟩,
    ⟨hrange.2.2.2.2.1, hrange.2.2.2.2.2.1⟩,
    ⟨hrange.2.2.2.2.2.2.1, hrange.2.2.2.2.2.2.2⟩,
    hflags.1, hflags.2.1, hflags.2.2.1, hflags.2.2.2, ?_⟩
  intro b inputs hrall
  exact alarms_runLoop (initialState b) inputs hrall ⟨rfl, rfl, rfl⟩

/-- Witness for C10: a concrete slow tick with all-zero draws sets the
Grid OK coil. -/
theorem sim_ranges_no_alarms_witness :
    (updateModbusRegisters
      (updateSCADAData 6000 ⟨0, 0, 0, 0, 0⟩ (initialState 0)).scadaData).coil4 =
      true :=
  (sim_ranges_no_alarms 6000 ⟨0, 0, 0, 0, 0⟩ (initialState 0)
    (by norm_num) (by norm_num) (by norm_num) (by norm_num)
    (by norm_num) (by norm_num) (by norm_num) (by norm_num)).2.2.2.2.1
